import Mathlib

/-!
Shallow embedding of `src/extract_pdf.py` (PBEV vehicle data extraction
pipeline) and proofs about its row classification, cell cleaning, numeric
coercion, row-to-record mapping and derived-metric computation.

Modelling conventions:
* PDF cells are `Option String` (`None` from pdfplumber is `none`).
* Python floats are modelled as exact rationals `ℚ`; the decimal values
  appearing in this pipeline are exactly representable.
* `str.strip`, `str.lower`, `str.upper` are modelled for the ASCII and
  Latin-1 character ranges that occur in the program's vocabulary.
* `float(v)` is modelled on the numeric-literal fragment it is given here
  (optional sign, digits with at most one point, optional exponent); the
  `inf`/`nan` words and digit underscores do not occur in the PDF data.
-/

/-- Python whitespace characters stripped by `str.strip()` (ASCII range). -/
def ehEspaco (c : Char) : Bool :=
  c = ' ' || c = '\t' || c = '\n' || c = '\r' || c = '\x0b' || c = '\x0c'

/-- Model of Python `str.strip()` at the character-list level. -/
def tira (l : List Char) : List Char :=
  ((l.dropWhile ehEspaco).reverse.dropWhile ehEspaco).reverse

/-- Model of Python `str.strip()` on strings. -/
def tiraStr (s : String) : String :=
  String.mk (tira s.toList)

/-- Character map of `.replace('\n', ' ')`. -/
def trocaQuebra (c : Char) : Char :=
  if c = '\n' then ' ' else c

/-- Model of Python `str.lower()` for ASCII and Latin-1 letters
(`A`-`Z` and `À`-`Þ` except `×` map down by 32); the program's keyword
and category vocabulary lies in this range. -/
def minusculaChar (c : Char) : Char :=
  if 'A' ≤ c && c ≤ 'Z' then Char.ofNat (c.toNat + 32)
  else if 0xC0 ≤ c.toNat && c.toNat ≤ 0xDE && c.toNat != 0xD7 then
    Char.ofNat (c.toNat + 32)
  else c

/-- Model of Python `str.lower()` on strings. -/
def minuscula (s : String) : String :=
  String.mk (s.toList.map minusculaChar)

/-- Model of Python `str.upper()` for ASCII and Latin-1 letters. -/
def maiusculaChar (c : Char) : Char :=
  if 'a' ≤ c && c ≤ 'z' then Char.ofNat (c.toNat - 32)
  else if 0xE0 ≤ c.toNat && c.toNat ≤ 0xFE && c.toNat != 0xF7 then
    Char.ofNat (c.toNat - 32)
  else c

/-- Model of Python `str.upper()` on strings. -/
def maiuscula (s : String) : String :=
  String.mk (s.toList.map maiusculaChar)

/-- `sub` starts `s` (helper for the substring test). -/
def comecaCom : List Char → List Char → Bool
  | [], _ => true
  | _ :: _, [] => false
  | a :: as, b :: bs => a = b && comecaCom as bs

/-- Model of Python's `sub in s` substring containment on char lists. -/
def contemLista (sub : List Char) : List Char → Bool
  | [] => sub.isEmpty
  | c :: rest => comecaCom sub (c :: rest) || contemLista sub rest

/-- Model of Python's `sub in s` substring containment on strings. -/
def contemStr (sub s : String) : Bool :=
  contemLista sub.toList s.toList

/-- The apostrophe character, kept out of string literals. -/
def apostrofo : Char := Char.ofNat 39

/-- The placeholder token `\\` followed by an apostrophe, from `limpar`. -/
def marcadorBarras : String := String.mk ['\\', '\\', apostrofo]

/-- The placeholder tokens of `limpar` (source line 89), in source order. -/
def marcadores : List String :=
  ["", "\\", "-", "\\\\", marcadorBarras, "ND", "N.A.", "N/A", "--"]

/-- The cleaned form of a cell: `str(val).strip().replace('\n', ' ')`. -/
def forma (s : String) : String :=
  String.mk ((tira s.toList).map trocaQuebra)

/-- Embeds `limpar` (source lines 84-91): `None` passes through, the value
is stripped and its line breaks become spaces, and the placeholder tokens
become `None`. -/
def limpar (val : Option String) : Option String :=
  match val with
  | none => none
  | some s =>
    let v := forma s
    if v ∈ marcadores then none else some v

/-- Digit-run value (digits are ASCII, most significant first). -/
def valorDigitos (l : List Char) : Nat :=
  l.foldl (fun a c => 10 * a + (c.toNat - 48)) 0

/-- Nonempty all-digit check. -/
def ehDigitos (l : List Char) : Bool :=
  !l.isEmpty && l.all Char.isDigit

/-- The syntactic parts of a Python float literal: sign, integer digits,
fraction digits and exponent. -/
structure PartesFloat where
  negativo : Bool
  parteInteira : List Char
  parteFracao : List Char
  expoente : ℤ
deriving DecidableEq

/-- Exponent part of a Python float literal: optional sign then digits. -/
def analisaExpoente (l : List Char) : Option ℤ :=
  match l with
  | [] => none
  | a :: r =>
    if a = '+' then (if ehDigitos r then some ((valorDigitos r : ℤ)) else none)
    else if a = '-' then (if ehDigitos r then some (-(valorDigitos r : ℤ)) else none)
    else if ehDigitos (a :: r) then some ((valorDigitos (a :: r) : ℤ)) else none

/-- Assembles the unsigned decimal parts from the split at the first point:
`resto` is what follows the integer digits. -/
def montaDecimal (ip resto : List Char) : Option (List Char × List Char) :=
  match resto with
  | [] => if ehDigitos ip then some (ip, []) else none
  | _ :: fp =>
    if ip.all Char.isDigit && fp.all Char.isDigit &&
        (!ip.isEmpty || !fp.isEmpty) then some (ip, fp) else none

/-- Unsigned decimal part of a Python float literal: digits with at most
one point and at least one digit (`"1."`, `".5"`, `"12"`, `"12.3"`). -/
def analisaDecimal (l : List Char) : Option (List Char × List Char) :=
  montaDecimal (l.takeWhile (fun c => c != '.')) (l.dropWhile (fun c => c != '.'))

/-- Assembles mantissa and exponent from the split at the first `e`/`E`. -/
def montaMantExp (mant resto : List Char) : Option (List Char × List Char × ℤ) :=
  match resto with
  | [] => (analisaDecimal mant).map (fun p => (p.1, p.2, (0 : ℤ)))
  | _ :: ex =>
    (analisaDecimal mant).bind (fun p =>
      (analisaExpoente ex).map (fun e => (p.1, p.2, e)))

/-- Mantissa with optional exponent of a Python float literal. -/
def decompoeMantExp (l : List Char) : Option (List Char × List Char × ℤ) :=
  montaMantExp (l.takeWhile (fun c => c != 'e' && c != 'E'))
    (l.dropWhile (fun c => c != 'e' && c != 'E'))

/-- Decomposition of a Python float literal over its character list, the
optional leading sign included. -/
def decompoeLista : List Char → Option PartesFloat
  | [] => (decompoeMantExp []).map (fun t => ⟨false, t.1, t.2.1, t.2.2⟩)
  | a :: r =>
    if a = '+' then (decompoeMantExp r).map (fun t => ⟨false, t.1, t.2.1, t.2.2⟩)
    else if a = '-' then (decompoeMantExp r).map (fun t => ⟨true, t.1, t.2.1, t.2.2⟩)
    else (decompoeMantExp (a :: r)).map (fun t => ⟨false, t.1, t.2.1, t.2.2⟩)

/-- Decomposition of a Python float literal, sign included. -/
def decompoe (s : String) : Option PartesFloat :=
  decompoeLista s.toList

/-- Ten to an integer power, over `ℚ`. -/
def dezElev (e : ℤ) : ℚ :=
  if 0 ≤ e then ((10 : ℚ) ^ e.toNat) else ((10 : ℚ) ^ (-e).toNat)⁻¹

/-- The rational value denoted by a decomposed Python float literal. -/
def valorPartes (p : PartesFloat) : ℚ :=
  (if p.negativo then -1 else 1) *
    ((valorDigitos p.parteInteira : ℚ) +
      (valorDigitos p.parteFracao : ℚ) / (10 : ℚ) ^ p.parteFracao.length) *
    dezElev p.expoente

/-- Model of Python `float(s)` on the numeric-literal fragment used by this
pipeline. -/
def analisaFloatPy (s : String) : Option ℚ :=
  (decompoe s).map valorPartes

/-- Character map of `.replace(',', '.')`. -/
def trocaVirgula (c : Char) : Char :=
  if c = ',' then '.' else c

/-- `v.replace(',', '.')` on strings. -/
def substituiVirgula (s : String) : String :=
  String.mk (s.toList.map trocaVirgula)

/-- Embeds `para_numero` (source lines 94-103): clean the cell, propagate
`None`, turn decimal commas into points and parse as a float, yielding
`None` instead of an error on unparsable text. -/
def paraNumero (val : Option String) : Option ℚ :=
  match limpar val with
  | none => none
  | some v => analisaFloatPy (substituiVirgula v)

example : limpar (some " Fiat ") = some "Fiat" := by decide
example : limpar (some "N/A") = none := by decide
example : limpar (some marcadorBarras) = none := by decide
example : limpar (some "a\nb") = some "a b" := by decide
example : decompoe "12.3" = some ⟨false, ['1', '2'], ['3'], 0⟩ := by decide
example : decompoe "1.234.5" = none := by decide
example : decompoe "abc" = none := by decide
example : minuscula "Utilitário Esportivo Grande 4x4"
    = "utilitário esportivo grande 4x4" := by decide
example : maiuscula (tiraStr " sim ") = "SIM" := by decide
example : contemStr "picape" "picape compacta" = true := by decide

/-- The 28-column positional schema `COLUNAS_PDF` (source lines 36-65). -/
def COLUNAS_PDF : List (Nat × String) :=
  [(0, "Categoria"),
   (1, "Marca"),
   (2, "Modelo"),
   (3, "Versão"),
   (4, "Motor"),
   (5, "Tipo de Propulsão (Combustão / Híbrido / Plug-in / Elétrico)"),
   (6, "Transmissão e Velocidades (Manual=M / Automática=A / Dupla Embreagem=DCT / Automatizada=MTA / Contínua=CVT)"),
   (7, "Ar Condicionado (S=Sim / N=Não)"),
   (8, "Direção Assistida (H=Hidráulica / M=Mecânica / E=Elétrica / E-H=Eletro-hidráulica)"),
   (9, "Combustível (E=Elétrico / G=Gasolina / F=Flex / D=Diesel)"),
   (10, "Emissões Poluentes - NMOG+NOx (mg/km)"),
   (11, "Emissões Poluentes - CO (mg/km)"),
   (12, "Emissões Poluentes - CHO Aldeídos (mg/km)"),
   (13, "Emissões Poluentes - Redução Relativa ao Limite (A=≥40% abaixo PROCONVE L7 / B=<40%)"),
   (14, "Emissões GEE - CO2 Fóssil Etanol (g/km)"),
   (15, "Emissões GEE - CO2 Fóssil Gasolina ou Diesel (g/km)"),
   (16, "Emissões GEE - CO2e Fóssil VEHP Plug-in (g/km)"),
   (17, "Consumo Etanol - Cidade (km/l)"),
   (18, "Consumo Etanol - Estrada (km/l)"),
   (19, "Consumo Gasolina ou Diesel - Cidade (km/l)"),
   (20, "Consumo Gasolina ou Diesel - Estrada (km/l)"),
   (21, "Consumo Elétrico - Cidade (km/le)"),
   (22, "Consumo Elétrico - Estrada (km/le)"),
   (23, "Consumo Energético (MJ/km)"),
   (24, "Autonomia Modo Elétrico (km)"),
   (25, "Classificação PBE - Relativa na Categoria (A=Mais Eficiente / B / C / D / E=Menos Eficiente)"),
   (26, "Classificação PBE - Absoluta Geral (A=Mais Eficiente / B / C / D / E=Menos Eficiente)"),
   (27, "Selo CONPET de Eficiência Energética (SIM / NÃO)")]

/-- The numeric column indices `COLUNAS_NUMERICAS` (source line 68). -/
def COLUNAS_NUMERICAS : List Nat :=
  [10, 11, 12, 14, 15, 16, 17, 18, 19, 20, 21, 22, 23, 24]

/-- The valid PBEV categories `CATEGORIAS` (source lines 71-77). -/
def CATEGORIAS : List String :=
  ["sub compacto", "compacto", "médio", "grande", "extra grande",
   "utilitário esportivo compacto", "utilitário esportivo grande",
   "utilitário esportivo grande 4x4", "fora de estrada compacto",
   "fora de estrada grande", "minivan", "comercial",
   "picape compacta", "picape", "esportivo"]

/-- A raw table row: an ordered sequence of optional cell strings. -/
abbrev Linha := List (Option String)

/-- The joined text of a row's truthy cells, lowercased:
`' '.join([str(c) for c in row if c]).lower()` (source line 108). -/
def textoJunto (row : Linha) : String :=
  minuscula (String.intercalate " "
    (row.filterMap (fun c =>
      match c with
      | none => none
      | some s => if s = "" then none else some s)))

/-- The header keyword list of `eh_cabecalho` (source lines 109-119). -/
def palavrasChave : List String :=
  ["categoria", "marca", "modelo", "versão", "motor", "transmissão",
   "combustível", "poluentes", "quilometragem", "emissões",
   "classificação", "programa brasileiro", "hidráulica", "mecânica",
   "eletro-hidráulica", "manual (m)", "automática", "nmog+nox",
   "gás efeito", "consumo energético", "menores níveis",
   "maiores níveis", "www.", "inmetro", "conpet", "ibama",
   "tipo de", "propulsão", "comparação", "relativa", "absoluta",
   "autonomia", "ar\ncond", "direção", "fóssil",
   "cidade\n(km", "estrada\n(km", "valores em km"]

/-- Embeds `eh_cabecalho` (source lines 106-119): the row is a header when
any keyword occurs in the joined lowercased text of its truthy cells. -/
def ehCabecalho (row : Linha) : Bool :=
  palavrasChave.any (fun kw => contemStr kw (textoJunto row))

/-- Embeds `eh_veiculo` (source lines 122-127): the row is a vehicle record
when it is non-empty, its first cell is truthy, and the stripped lowercased
first cell contains one of the category names. -/
def ehVeiculo (row : Linha) : Bool :=
  match row with
  | [] => false
  | c :: _ =>
    match c with
    | none => false
    | some s =>
      if s = "" then false
      else CATEGORIAS.any (fun cat => contemStr cat (minuscula (tiraStr s)))

/-- The per-row keep condition of `extrair` (source lines 156-158):
`if row and len(row) >= 25: if not eh_cabecalho(row) and eh_veiculo(row)`. -/
def mantemLinha (row : Linha) : Bool :=
  (!row.isEmpty && decide (25 ≤ row.length)) &&
    (!ehCabecalho row && ehVeiculo row)

/-- The row-filtering core of `extrair` over the extracted tables. -/
def extrair (tabelas : List (List Linha)) : List Linha :=
  (tabelas.flatten).filter mantemLinha

/-- A record field value: textual or numeric, possibly missing. -/
inductive Valor
  | texto : Option String → Valor
  | numero : Option ℚ → Valor
deriving DecidableEq

/-- A vehicle record: one value per positional schema field. -/
abbrev Registro := Fin 28 → Valor

/-- `n_colunas_esperadas = max(COLUNAS_PDF.keys()) + 1` (source line 167). -/
def nColunasEsperadas : Nat :=
  ((COLUNAS_PDF.map Prod.fst).foldl max 0) + 1

example : nColunasEsperadas = 28 := by decide

/-- The `while len(row) < n_colunas_esperadas: row.append(None)` padding of
`parsear` (source lines 171-172). -/
def normaliza (row : Linha) : Linha :=
  row ++ List.replicate (nColunasEsperadas - row.length) none

/-- The per-row schema binding of `parsear` (source lines 174-179): each
of the 28 fields is the numeric or textual cleaning of its padded cell. -/
def parsearLinha (row : Linha) : Registro := fun i =>
  let cell := (normaliza row).getD i none
  if (i : Nat) ∈ COLUNAS_NUMERICAS then Valor.numero (paraNumero cell)
  else Valor.texto (limpar cell)

/-- The `if registro.get(COLUNAS_PDF[1])` brand guard of `parsear`
(source line 181): the Marca field must be a truthy string. -/
def temMarca (r : Registro) : Bool :=
  match r 1 with
  | Valor.texto (some s) => s != ""
  | _ => false

/-- Embeds `parsear` (source lines 164-184): map each raw row through the
schema, keeping only records with a truthy brand. -/
def parsear (linhas : List Linha) : List Registro :=
  linhas.filterMap (fun row =>
    let registro := parsearLinha row
    if temMarca registro then some registro else none)

example : mantemLinha (List.replicate 25 (some "x")) = false := by decide
example : ehVeiculo [some "Utilitário Esportivo Grande 4x4"] = true := by decide
example : ehCabecalho [some "Categoria", some "Marca"] = true := by decide
example : temMarca (parsearLinha [some "compacto", some "Fiat"]) = true := by decide
example : temMarca (parsearLinha [some "compacto", none]) = false := by decide

/-- The powertrain standardization map of `pos_processar` (source lines
202-206). -/
def mapaPropulsao : List (String × String) :=
  [("combustão", "Combustão"), ("híbrido", "Híbrido"),
   ("plug-in", "Plug-in"), ("elétrico", "Elétrico"),
   ("hibrido", "Híbrido"), ("eletrico", "Elétrico")]

/-- `df[col_prop].str.lower().map(mapa).fillna(df[col_prop])` per value
(source line 207): lowercase, exact dictionary lookup, fall back to the
original value when unmapped; missing stays missing. -/
def propulsaoPadrao (v : Option String) : Option String :=
  match v with
  | none => none
  | some s =>
    match mapaPropulsao.lookup (minuscula s) with
    | some m => some m
    | none => some s

/-- `re.sub(r'[-\d]', '', str(x)).strip()` per value (source lines
210-211): drop hyphens and digits, then strip. -/
def transTipoDe (v : Option String) : Option String :=
  match v with
  | none => none
  | some s =>
    some (tiraStr (String.mk (s.toList.filter (fun c => !(c = '-' || c.isDigit)))))

/-- First maximal digit run of a string, as `re.search(r'(\d+)', s)`. -/
def primeiraSeqDigitos : List Char → Option Nat
  | [] => none
  | c :: r =>
    if c.isDigit then some (valorDigitos ((c :: r).takeWhile Char.isDigit))
    else primeiraSeqDigitos r

/-- Gear count extraction of `pos_processar` (source lines 212-214):
the first digit run of the transmission code, else missing. -/
def transVelDe (v : Option String) : Option Nat :=
  match v with
  | none => none
  | some s => primeiraSeqDigitos s.toList

/-- The fuel-code map `mapa_c` (source line 217). -/
def mapaCombustivel : List (String × String) :=
  [("E", "Elétrico"), ("G", "Gasolina"), ("F", "Flex"), ("D", "Diesel")]

/-- `df[col_comb].map(mapa_c).fillna(df[col_comb])` per value (source line
218): exact lookup with fallback to the original value. -/
def combustivelDescricaoDe (v : Option String) : Option String :=
  match v with
  | none => none
  | some s =>
    match mapaCombustivel.lookup s with
    | some m => some m
    | none => some s

/-- Round-half-to-even to an integer, as numpy rounding does. -/
def arredondaMeioPar (x : ℚ) : ℤ :=
  let f := ⌊x⌋
  let r := x - f
  if r < 1 / 2 then f
  else if 1 / 2 < r then f + 1
  else if f % 2 = 0 then f else f + 1

/-- `.round(2)` on an exact rational value. -/
def round2 (x : ℚ) : ℚ :=
  (arredondaMeioPar (x * 100) : ℚ) / 100

/-- The combined-cycle consumption `(0.55 * df[cid] + 0.45 * df[est])
.round(2)` per value pair (source lines 226-228); a missing component
propagates (pandas NaN arithmetic), it is not replaced by zero. -/
def consumoCombinado (cid est : Option ℚ) : Option ℚ :=
  match cid, est with
  | some c, some e => some (round2 ((0.55 : ℚ) * c + (0.45 : ℚ) * e))
  | _, _ => none

/-- `pd.cut(df[col_co2], bins=[0, 50, 100, 150, 200, 250, 999],
labels=..., include_lowest=True)` per value (source lines 230-235):
half-open bins `(lo, hi]` with the first bin closed at 0; values outside
`[0, 999]` and missing values give no category. -/
def faixaCO2 (v : Option ℚ) : Option String :=
  match v with
  | none => none
  | some x =>
    if 0 ≤ x ∧ x ≤ 50 then some "0-50"
    else if 50 < x ∧ x ≤ 100 then some "51-100"
    else if 100 < x ∧ x ≤ 150 then some "101-150"
    else if 150 < x ∧ x ≤ 200 then some "151-200"
    else if 200 < x ∧ x ≤ 250 then some "201-250"
    else if 250 < x ∧ x ≤ 999 then some "250+"
    else none

/-- The CONPET seal collapse (source lines 243-244) on a present-or-missing
text value: `'SIM' if str(x).strip().upper() == 'SIM' else 'NÃO'`; for a
missing value `str(x)` is `"None"`/`"nan"`, which is not `"SIM"`. -/
def seloNorm (v : Option String) : String :=
  match v with
  | none => "NÃO"
  | some s => if maiuscula (tiraStr s) = "SIM" then "SIM" else "NÃO"

/-- The seal collapse on a record field; `str` of a float value never
equals `"SIM"` either. -/
def seloDoValor : Valor → String
  | Valor.texto v => seloNorm v
  | Valor.numero _ => "NÃO"

/-- Textual content of a record field (the fields `pos_processar` reads as
text are textual by the schema). -/
def textoDe : Valor → Option String
  | Valor.texto v => v
  | Valor.numero _ => none

/-- Numeric content of a record field (the fields `pos_processar` reads as
numbers are numeric by the schema). -/
def numeroDe : Valor → Option ℚ
  | Valor.numero v => v
  | Valor.texto _ => none

/-- A record after `pos_processar`: the 28 base fields (with propulsion
standardized in place and the seal collapsed in place) plus the derived
columns added by source lines 210-244. -/
structure RegistroPos where
  base : Fin 28 → Valor
  transTipo : Option String
  transVel : Option Nat
  combustivelDescricao : Option String
  consumoCombGasolina : Option ℚ
  consumoCombEtanol : Option ℚ
  consumoCombEletrico : Option ℚ
  faixaCO2GasDiesel : Option String
  zeroEmissao : Bool
  eletrificado : Bool

/-- Embeds the per-record action of `pos_processar` (source lines
191-246): every derived column is a pure function of the record's own
fields, and only fields 5 (propulsion) and 27 (seal) are rewritten. -/
def posProcessar (r : Registro) : RegistroPos :=
  let prop := propulsaoPadrao (textoDe (r 5))
  { base := fun i =>
      if i = (5 : Fin 28) then Valor.texto prop
      else if i = (27 : Fin 28) then Valor.texto (some (seloDoValor (r 27)))
      else r i
    transTipo := transTipoDe (textoDe (r 6))
    transVel := transVelDe (textoDe (r 6))
    combustivelDescricao := combustivelDescricaoDe (textoDe (r 9))
    consumoCombGasolina := consumoCombinado (numeroDe (r 19)) (numeroDe (r 20))
    consumoCombEtanol := consumoCombinado (numeroDe (r 17)) (numeroDe (r 18))
    consumoCombEletrico := consumoCombinado (numeroDe (r 21)) (numeroDe (r 22))
    faixaCO2GasDiesel := faixaCO2 (numeroDe (r 15))
    zeroEmissao := prop == some "Elétrico"
    eletrificado := prop == some "Elétrico" || prop == some "Híbrido" ||
      prop == some "Plug-in" }

example : propulsaoPadrao (some "HÍBRIDO") = some "Híbrido" := by decide
example : transTipoDe (some "M-5") = some "M" := by decide
example : transVelDe (some "M-5") = some 5 := by decide
example : combustivelDescricaoDe (some "G") = some "Gasolina" := by decide
example : seloNorm (some " sim ") = "SIM" := by decide
example : seloNorm none = "NÃO" := by decide
example : faixaCO2 (some 1000) = none := by decide
example : faixaCO2 (some 0) = some "0-50" := by decide
example : faixaCO2 (some 250) = some "201-250" := by decide
example : consumoCombinado none (some 1) = none := by decide

/-! ## Helper lemmas -/

lemma nColunas_eq : nColunasEsperadas = 28 := by decide

lemma any_perm_eq {l m : List String} (h : l.Perm m) (f : String → Bool) :
    l.any f = m.any f := by
  rw [Bool.eq_iff_iff]
  simp only [List.any_eq_true]
  exact ⟨fun ⟨x, hx, hf⟩ => ⟨x, h.mem_iff.mp hx, hf⟩,
    fun ⟨x, hx, hf⟩ => ⟨x, h.mem_iff.mpr hx, hf⟩⟩

lemma getD_replicate_none (k i : Nat) :
    (List.replicate k (none : Option String)).getD i none = none := by
  induction k generalizing i with
  | zero => rfl
  | succ n ih =>
    cases i with
    | zero => rfl
    | succ j => exact ih j

lemma getD_pad (l : Linha) (k i : Nat) :
    (l ++ List.replicate k (none : Option String)).getD i none = l.getD i none := by
  induction l generalizing i with
  | nil =>
    rw [List.nil_append]
    exact getD_replicate_none k i
  | cons a t ih =>
    cases i with
    | zero => rfl
    | succ j => exact ih j

/-! ## C1: the extractor's row filter -/

/-- C1: a table row is kept by the extractor iff it has at least 25 cells,
fails the header test (`eh_cabecalho`) and passes the vehicle test
(`eh_veiculo`); in particular any row whose joined lowercased truthy-cell
text contains `"categoria"` is excluded. -/
theorem extrair_mantem_sse :
    (∀ (tabelas : List (List Linha)) (row : Linha),
      row ∈ extrair tabelas ↔ row ∈ tabelas.flatten ∧ mantemLinha row = true)
    ∧ (∀ row : Linha, mantemLinha row = true ↔
      (25 ≤ row.length ∧ ehCabecalho row = false ∧ ehVeiculo row = true))
    ∧ (∀ row : Linha, contemStr "categoria" (textoJunto row) = true →
        mantemLinha row = false) := by
  refine ⟨fun tabelas row => List.mem_filter, ?_, ?_⟩
  · intro row
    simp only [mantemLinha, Bool.and_eq_true, Bool.not_eq_true',
      decide_eq_true_eq]
    constructor
    · rintro ⟨⟨-, h25⟩, hc, hv⟩
      exact ⟨h25, hc, hv⟩
    · rintro ⟨h25, hc, hv⟩
      refine ⟨⟨?_, h25⟩, hc, hv⟩
      cases row with
      | nil => simp at h25
      | cons a t => rfl
  · intro row h
    have hc : ehCabecalho row = true := by
      unfold ehCabecalho
      exact List.any_eq_true.mpr ⟨"categoria", by decide, h⟩
    simp [mantemLinha, hc]

/-- Instance of `extrair_mantem_sse`: the header row
`["Categoria", "Marca"]` is excluded. -/
theorem extrair_mantem_sse_inst :
    mantemLinha [some "Categoria", some "Marca"] = false :=
  extrair_mantem_sse.2.2 [some "Categoria", some "Marca"] (by decide)

/-! ## C4: the vehicle-row test -/

/-- C4: `eh_veiculo` accepts a row iff the row is non-empty, its first
cell is a non-empty string, and the stripped lowercased first cell
contains some category of `CATEGORIAS` as a substring; the containment
test is order-independent over the category list, and the first cells
`"Utilitário Esportivo Grande 4x4"`, `"picape"` and `"picape compacta"`
are all accepted. -/
theorem ehVeiculo_caracterizacao :
    (∀ row : Linha, ehVeiculo row = true ↔
      ∃ s, row.head? = some (some s) ∧ s ≠ "" ∧
        ∃ cat ∈ CATEGORIAS, contemStr cat (minuscula (tiraStr s)) = true)
    ∧ (∀ l : List String, l.Perm CATEGORIAS → ∀ t : String,
        l.any (fun cat => contemStr cat t) =
          CATEGORIAS.any (fun cat => contemStr cat t))
    ∧ ehVeiculo [some "Utilitário Esportivo Grande 4x4"] = true
    ∧ ehVeiculo [some "picape"] = true
    ∧ ehVeiculo [some "picape compacta"] = true
    ∧ CATEGORIAS.length = 15 := by
  refine ⟨?_, fun l hl t => any_perm_eq hl _, by decide, by decide, by decide,
    by decide⟩
  intro row
  cases row with
  | nil => simp [ehVeiculo]
  | cons c t =>
    cases c with
    | none => simp [ehVeiculo]
    | some s =>
      by_cases hs : s = ""
      · subst hs
        simp [ehVeiculo]
      · simp [ehVeiculo, hs, List.any_eq_true]

/-- Instance of `ehVeiculo_caracterizacao`: the containment test gives the
same verdict on the reversed category list. -/
theorem ehVeiculo_caracterizacao_inst :
    (CATEGORIAS.reverse).any (fun cat => contemStr cat "picape") =
      CATEGORIAS.any (fun cat => contemStr cat "picape") :=
  ehVeiculo_caracterizacao.2.1 CATEGORIAS.reverse
    (List.reverse_perm CATEGORIAS) "picape"

/-! ## C2: the CO2 bucket -/

/-- C2 as stated fails: the value 1000 is strictly greater than 250 yet
receives no category, because the top cut bin ends at 999 rather than
extending to infinity. -/
theorem faixaCO2_contraexemplo :
    faixaCO2 (some 1000) = none ∧ (250 : ℚ) < 1000 :=
  ⟨by decide, by decide⟩

/-- C2 amended: the CO2 bucket follows the bins
`[0,50], (50,100], (100,150], (150,200], (200,250], (250,999]` with the
stated labels; a missing value, a negative value, or a value above 999
yields no category. -/
theorem faixaCO2_caracterizacao :
    faixaCO2 none = none
    ∧ (∀ x : ℚ, x < 0 → faixaCO2 (some x) = none)
    ∧ (∀ x : ℚ, 0 ≤ x → x ≤ 50 → faixaCO2 (some x) = some "0-50")
    ∧ (∀ x : ℚ, 50 < x → x ≤ 100 → faixaCO2 (some x) = some "51-100")
    ∧ (∀ x : ℚ, 100 < x → x ≤ 150 → faixaCO2 (some x) = some "101-150")
    ∧ (∀ x : ℚ, 150 < x → x ≤ 200 → faixaCO2 (some x) = some "151-200")
    ∧ (∀ x : ℚ, 200 < x → x ≤ 250 → faixaCO2 (some x) = some "201-250")
    ∧ (∀ x : ℚ, 250 < x → x ≤ 999 → faixaCO2 (some x) = some "250+")
    ∧ (∀ x : ℚ, 999 < x → faixaCO2 (some x) = none) := by
  refine ⟨rfl, ?_, ?_, ?_, ?_, ?_, ?_, ?_, ?_⟩ <;> intro x h1 <;>
    try intro h2
  all_goals
    show (if 0 ≤ x ∧ x ≤ 50 then some "0-50"
      else if 50 < x ∧ x ≤ 100 then some "51-100"
      else if 100 < x ∧ x ≤ 150 then some "101-150"
      else if 150 < x ∧ x ≤ 200 then some "151-200"
      else if 200 < x ∧ x ≤ 250 then some "201-250"
      else if 250 < x ∧ x ≤ 999 then some "250+"
      else none) = _
  all_goals split_ifs with a1 a2 a3 a4 a5 a6 <;>
    first
      | rfl
      | (exfalso;
         first
           | rcases a1 with ⟨b1, b2⟩ <;> linarith
           | rcases a2 with ⟨b1, b2⟩ <;> linarith
           | rcases a3 with ⟨b1, b2⟩ <;> linarith
           | rcases a4 with ⟨b1, b2⟩ <;> linarith
           | rcases a5 with ⟨b1, b2⟩ <;> linarith
           | rcases a6 with ⟨b1, b2⟩ <;> linarith
           | (apply a1; constructor <;> linarith)
           | (apply a2; constructor <;> linarith)
           | (apply a3; constructor <;> linarith)
           | (apply a4; constructor <;> linarith)
           | (apply a5; constructor <;> linarith)
           | (apply a6; constructor <;> linarith))

/-- Instance of `faixaCO2_caracterizacao` at 0, 300, 1000 and -1. -/
theorem faixaCO2_caracterizacao_inst :
    faixaCO2 (some 0) = some "0-50"
    ∧ faixaCO2 (some 300) = some "250+"
    ∧ faixaCO2 (some 1000) = none
    ∧ faixaCO2 (some (-1)) = none :=
  ⟨faixaCO2_caracterizacao.2.2.1 0 (by decide) (by decide),
   faixaCO2_caracterizacao.2.2.2.2.2.2.2.1 300 (by decide) (by decide),
   faixaCO2_caracterizacao.2.2.2.2.2.2.2.2 1000 (by decide),
   faixaCO2_caracterizacao.2.1 (-1) (by decide)⟩

/-! ## C3: cell cleaning -/

/-- C3 as stated fails: the source's placeholder set also contains a ninth
token, two backslashes followed by an apostrophe, which is outside the
claim's eight placeholders yet cleans to null (its cleaned form is the
non-empty token itself). -/
theorem limpar_contraexemplo :
    limpar (some marcadorBarras) = none
    ∧ marcadorBarras ∉
        (["", "\\", "-", "\\\\", "ND", "N.A.", "N/A", "--"] : List String)
    ∧ forma marcadorBarras = marcadorBarras
    ∧ marcadorBarras ≠ "" :=
  ⟨by decide, by decide, by decide, by decide⟩

/-- C3 amended: cleaning maps null to null; it maps exactly the nine
placeholder tokens of `marcadores` (the claim's eight plus the
two-backslashes-and-apostrophe token), matched exactly against the
trimmed line-break-collapsed form, to null; every other string cleans to
its trimmed line-break-collapsed form. -/
theorem limpar_caracterizacao :
    limpar none = none
    ∧ (∀ m ∈ marcadores, limpar (some m) = none)
    ∧ (∀ s : String, limpar (some s) = none ↔ forma s ∈ marcadores)
    ∧ (∀ s : String, forma s ∉ marcadores → limpar (some s) = some (forma s)) := by
  refine ⟨rfl, ?_, ?_, ?_⟩
  · intro m hm
    fin_cases hm <;> decide
  · intro s
    show (if forma s ∈ marcadores then (none : Option String)
      else some (forma s)) = none ↔ forma s ∈ marcadores
    split_ifs with h
    · simp [h]
    · simp [h]
  · intro s h
    show (if forma s ∈ marcadores then (none : Option String)
      else some (forma s)) = some (forma s)
    rw [if_neg h]

/-- Instance of `limpar_caracterizacao`: `"ND"` cleans to null and
`" Fiat "` cleans to `"Fiat"`. -/
theorem limpar_caracterizacao_inst :
    limpar (some "ND") = none ∧ limpar (some " Fiat ") = some "Fiat" :=
  ⟨limpar_caracterizacao.2.1 "ND" (by decide),
   by
     have h := limpar_caracterizacao.2.2.2 " Fiat " (by decide)
     rwa [show forma " Fiat " = "Fiat" from by decide] at h⟩

/-! ## C5: combined-cycle consumption -/

/-- C5: for each of the three fuel families the derived combined-cycle
consumption is null iff the city or highway component is null, and on
present components equals `0.55 * city + 0.45 * highway` rounded to two
decimals; city 10 and highway 12 give 10.9. -/
theorem consumoCombinado_caracterizacao :
    (∀ cid est : Option ℚ,
      consumoCombinado cid est = none ↔ (cid = none ∨ est = none))
    ∧ (∀ c e : ℚ, consumoCombinado (some c) (some e) =
        some (round2 ((0.55 : ℚ) * c + (0.45 : ℚ) * e)))
    ∧ consumoCombinado (some 10) (some 12) = some (109 / 10)
    ∧ (∀ r : Registro,
        (posProcessar r).consumoCombGasolina =
          consumoCombinado (numeroDe (r 19)) (numeroDe (r 20))
        ∧ (posProcessar r).consumoCombEtanol =
          consumoCombinado (numeroDe (r 17)) (numeroDe (r 18))
        ∧ (posProcessar r).consumoCombEletrico =
          consumoCombinado (numeroDe (r 21)) (numeroDe (r 22))) := by
  refine ⟨?_, fun c e => rfl, ?_, fun r => ⟨rfl, rfl, rfl⟩⟩
  · rintro (_ | c) (_ | e) <;> simp [consumoCombinado]
  · show some (round2 ((0.55 : ℚ) * 10 + (0.45 : ℚ) * 12)) = some (109 / 10)
    norm_num [round2, arredondaMeioPar]

/-! ## C9: the efficiency-seal collapse -/

/-- C9: after post-processing the seal field holds exactly `"SIM"` when
the trimmed uppercased raw value equals `"SIM"`, and `"NÃO"` in every
other case, a missing value included. -/
theorem selo_caracterizacao :
    (∀ r : Registro,
      (posProcessar r).base 27 = Valor.texto (some (seloDoValor (r 27))))
    ∧ (∀ v : Option String, seloNorm v = "SIM" ↔
        ∃ s, v = some s ∧ maiuscula (tiraStr s) = "SIM")
    ∧ (∀ v : Option String, seloNorm v ≠ "SIM" → seloNorm v = "NÃO")
    ∧ seloNorm none = "NÃO" := by
  refine ⟨?_, ?_, ?_, rfl⟩
  · intro r
    show (if (27 : Fin 28) = 5 then Valor.texto (propulsaoPadrao (textoDe (r 5)))
      else if (27 : Fin 28) = 27 then Valor.texto (some (seloDoValor (r 27)))
      else r 27) = Valor.texto (some (seloDoValor (r 27)))
    rw [if_neg (by decide), if_pos rfl]
  · rintro (_ | s)
    · simp [seloNorm]
    · by_cases h : maiuscula (tiraStr s) = "SIM"
      · simp [seloNorm, h]
      · simp [seloNorm, h]
  · intro v h
    cases v with
    | none => rfl
    | some s =>
      by_cases hs : maiuscula (tiraStr s) = "SIM"
      · exact absurd (by simp [seloNorm, hs]) h
      · simp [seloNorm, hs]

/-- Instance of `selo_caracterizacao`: an arbitrary other text collapses
to `"NÃO"`. -/
theorem selo_caracterizacao_inst :
    seloNorm (some "talvez") = "NÃO" :=
  selo_caracterizacao.2.2.1 (some "talvez") (by decide)

/-! ## C7: padding of short rows -/

/-- C7: for a raw row shorter than the 28-column schema the mapper pads
with nulls to exactly 28 cells, every field index is in bounds of the
padded row, each field receives the numeric or textual cleaning of the
original cell (null for the padded positions), and the padded positions
yield null fields. -/
theorem parsearLinha_preenche :
    ∀ (row : Linha) (i : Fin 28), row.length < 28 →
      (normaliza row).length = 28
      ∧ (i : Nat) < (normaliza row).length
      ∧ parsearLinha row i =
          (if (i : Nat) ∈ COLUNAS_NUMERICAS
           then Valor.numero (paraNumero (row.getD i none))
           else Valor.texto (limpar (row.getD i none)))
      ∧ (row.length ≤ (i : Nat) →
          parsearLinha row i =
            (if (i : Nat) ∈ COLUNAS_NUMERICAS then Valor.numero none
             else Valor.texto none)) := by
  intro row i h
  have hlen : (normaliza row).length = 28 := by
    simp only [normaliza, List.length_append, List.length_replicate, nColunas_eq]
    omega
  have hcell : (normaliza row).getD i none = row.getD i none :=
    getD_pad row _ i
  have h3 : parsearLinha row i =
      (if (i : Nat) ∈ COLUNAS_NUMERICAS
       then Valor.numero (paraNumero (row.getD i none))
       else Valor.texto (limpar (row.getD i none))) := by
    show (if (i : Nat) ∈ COLUNAS_NUMERICAS
      then Valor.numero (paraNumero ((normaliza row).getD i none))
      else Valor.texto (limpar ((normaliza row).getD i none))) = _
    rw [hcell]
  refine ⟨hlen, ?_, h3, ?_⟩
  · rw [hlen]
    exact i.isLt
  · intro hle
    have hd : row.getD i none = none := List.getD_eq_default _ _ hle
    rw [h3, hd]
    split_ifs <;> rfl

/-- Instance of `parsearLinha_preenche` on a one-cell row: the padded row
has 28 cells and the (numeric) field 10 is null. -/
theorem parsearLinha_preenche_inst :
    (normaliza ([some "compacto"] : Linha)).length = 28
    ∧ parsearLinha [some "compacto"] 10 = Valor.numero none := by
  have h := parsearLinha_preenche [some "compacto"] 10 (by decide)
  refine ⟨h.1, ?_⟩
  rw [h.2.2.2 (by decide)]
  rfl

/-! ## C8: the brand invariant -/

/-- C8: every record produced by `parsear` has a non-null (truthy) brand
field; a row whose brand cell cleans to null yields a record that fails
the brand guard and is omitted; and post-processing does not rewrite the
brand field. -/
theorem parsear_marca_invariante :
    (∀ (linhas : List Linha) (r : Registro), r ∈ parsear linhas →
      (∃ s, r 1 = Valor.texto (some s) ∧ s ≠ "")
      ∧ (posProcessar r).base 1 = r 1)
    ∧ (∀ row : Linha, limpar (row.getD 1 none) = none →
        temMarca (parsearLinha row) = false) := by
  constructor
  · intro linhas r hr
    obtain ⟨row, -, hf⟩ := List.mem_filterMap.mp hr
    have hbase : (posProcessar r).base 1 = r 1 := by
      show (if (1 : Fin 28) = 5 then Valor.texto (propulsaoPadrao (textoDe (r 5)))
        else if (1 : Fin 28) = 27 then Valor.texto (some (seloDoValor (r 27)))
        else r 1) = r 1
      rw [if_neg (by decide), if_neg (by decide)]
    refine ⟨?_, hbase⟩
    by_cases hm : temMarca (parsearLinha row) = true
    · have hr' : parsearLinha row = r := by
        simp only [hm, if_true] at hf
        exact Option.some.inj hf
      rw [← hr']
      rw [← hr'] at hbase
      unfold temMarca at hm
      cases hv : parsearLinha row 1 with
      | texto o =>
        cases o with
        | none => rw [hv] at hm; simp at hm
        | some s =>
          refine ⟨s, rfl, ?_⟩
          rw [hv] at hm
          simpa using hm
      | numero o => rw [hv] at hm; simp at hm
    · rw [Bool.not_eq_true] at hm
      simp only [hm, if_false] at hf
      cases hf
  · intro row h
    have hfield : parsearLinha row 1 = Valor.texto none := by
      show (if ((1 : Fin 28) : Nat) ∈ COLUNAS_NUMERICAS
        then Valor.numero (paraNumero ((normaliza row).getD 1 none))
        else Valor.texto (limpar ((normaliza row).getD 1 none))) = Valor.texto none
      rw [if_neg (by decide),
        show (normaliza row).getD 1 none = row.getD 1 none from getD_pad row _ 1, h]
    unfold temMarca
    rw [hfield]

/-- Instance of `parsear_marca_invariante`: the record of a row with brand
`"Fiat"` keeps its brand, and a row with a null brand cell fails the
guard. -/
theorem parsear_marca_invariante_inst :
    ((∃ s, parsearLinha [some "compacto", some "Fiat"] 1 =
        Valor.texto (some s) ∧ s ≠ "")
      ∧ (posProcessar (parsearLinha [some "compacto", some "Fiat"])).base 1 =
          parsearLinha [some "compacto", some "Fiat"] 1)
    ∧ temMarca (parsearLinha [some "compacto", none]) = false := by
  constructor
  · refine parsear_marca_invariante.1 [[some "compacto", some "Fiat"]]
      (parsearLinha [some "compacto", some "Fiat"]) ?_
    have h : parsear [[some "compacto", some "Fiat"]] =
        [parsearLinha [some "compacto", some "Fiat"]] := rfl
    rw [h]
    exact List.mem_singleton.mpr rfl
  · exact parsear_marca_invariante.2 [some "compacto", none] (by decide)

/-! ## C6: numeric cleaning -/

/-- C6: numeric cleaning applies cell cleaning first and propagates its
null; otherwise it replaces commas by points and parses as a float,
returning null on unparsable text; `"12,3"` and `"12.3"` both parse to
the rational 123/10. -/
theorem paraNumero_caracterizacao :
    (∀ val : Option String, paraNumero val =
      (match limpar val with
       | none => none
       | some v => analisaFloatPy (substituiVirgula v)))
    ∧ (∀ val : Option String, limpar val = none → paraNumero val = none)
    ∧ paraNumero (some "12,3") = some (123 / 10)
    ∧ paraNumero (some "12.3") = some (123 / 10)
    ∧ paraNumero (some "abc") = none := by
  have heval : analisaFloatPy "12.3" = some (123 / 10) := by
    have hd : decompoe "12.3" = some ⟨false, ['1', '2'], ['3'], 0⟩ := by decide
    rw [analisaFloatPy, hd, Option.map_some']
    have g1 : valorDigitos ['1', '2'] = 12 := by decide
    have g2 : valorDigitos ['3'] = 3 := by decide
    rw [valorPartes]
    norm_num [g1, g2, dezElev]
  refine ⟨fun val => rfl, ?_, ?_, ?_, by decide⟩
  · intro val h
    unfold paraNumero
    rw [h]
  · show (match limpar (some "12,3") with
      | none => none
      | some v => analisaFloatPy (substituiVirgula v)) = some (123 / 10)
    rw [show limpar (some "12,3") = some "12,3" from by decide]
    show analisaFloatPy (substituiVirgula "12,3") = some (123 / 10)
    rw [show substituiVirgula "12,3" = "12.3" from by decide]
    exact heval
  · show (match limpar (some "12.3") with
      | none => none
      | some v => analisaFloatPy (substituiVirgula v)) = some (123 / 10)
    rw [show limpar (some "12.3") = some "12.3" from by decide]
    show analisaFloatPy (substituiVirgula "12.3") = some (123 / 10)
    rw [show substituiVirgula "12.3" = "12.3" from by decide]
    exact heval

/-- Instance of `paraNumero_caracterizacao`: the placeholder `"N/A"`
cleans to null, so its numeric cleaning is null. -/
theorem paraNumero_caracterizacao_inst :
    paraNumero (some "N/A") = none :=
  paraNumero_caracterizacao.2.1 (some "N/A") (by decide)

/-! ## C10: comma handling in numeric cleaning -/

lemma count_dropWhile {p : Char → Bool} {c : Char} (hc : p c = false)
    (l : List Char) : (l.dropWhile p).count c = l.count c := by
  induction l with
  | nil => rfl
  | cons a t ih =>
    rw [List.dropWhile_cons]
    split_ifs with ha
    · have hne : c ≠ a := fun heq => by rw [heq, ha] at hc; cases hc
      rw [ih, List.count_cons_of_ne hne]
    · rfl

lemma count_tira {c : Char} (hc : ehEspaco c = false) (l : List Char) :
    (tira l).count c = l.count c := by
  unfold tira
  rw [List.count_reverse, count_dropWhile hc, List.count_reverse,
    count_dropWhile hc]

lemma count_virgula_quebra (l : List Char) :
    (l.map trocaQuebra).count ',' = l.count ',' := by
  induction l with
  | nil => rfl
  | cons a t ih =>
    rw [List.map_cons]
    by_cases ha : a = ','
    · subst ha
      rw [show trocaQuebra ',' = ',' from rfl, List.count_cons_self,
        List.count_cons_self, ih]
    · have h2 : trocaQuebra a ≠ ',' := by
        unfold trocaQuebra
        split_ifs with h
        · decide
        · exact ha
      rw [List.count_cons_of_ne (fun heq => h2 heq.symm),
        List.count_cons_of_ne (fun heq => ha heq.symm), ih]

lemma count_ponto_virgula (l : List Char) :
    l.count ',' ≤ (l.map trocaVirgula).count '.' := by
  induction l with
  | nil => simp
  | cons a t ih =>
    rw [List.map_cons]
    by_cases ha : a = ','
    · subst ha
      rw [show trocaVirgula ',' = '.' from rfl, List.count_cons_self,
        List.count_cons_self]
      omega
    · rw [List.count_cons_of_ne (fun heq => ha heq.symm)]
      by_cases hb : trocaVirgula a = '.'
      · rw [hb, List.count_cons_self]
        omega
      · rw [List.count_cons_of_ne (fun heq => hb heq.symm)]
        exact ih

lemma dropWhile_cabeca_falsa {p : Char → Bool} :
    ∀ {l : List Char} {c : Char} {r : List Char},
      l.dropWhile p = c :: r → p c = false := by
  intro l
  induction l with
  | nil => intro c r h; cases h
  | cons a t ih =>
    intro c r h
    rw [List.dropWhile_cons] at h
    split_ifs at h with ha
    · exact ih h
    · injection h with h1 _
      subst h1
      cases hpa : p a with
      | false => rfl
      | true => exact absurd hpa ha

lemma eAmbos {a b : Bool} (h : (a && b) = true) : a = true ∧ b = true := by
  cases a <;> cases b <;> simp_all

lemma limpar_some_eq {s v : String} (h : limpar (some s) = some v) :
    v = forma s := by
  simp only [limpar] at h
  split_ifs at h
  exact (Option.some.inj h).symm

lemma count_ponto_digitos {l : List Char} (h : l.all Char.isDigit = true) :
    l.count '.' = 0 := by
  rw [List.count_eq_zero]
  intro hmem
  exact absurd (List.all_eq_true.mp h _ hmem) (by decide)

lemma analisaExpoente_pontos {l : List Char} {e : ℤ}
    (h : analisaExpoente l = some e) : l.count '.' = 0 := by
  cases l with
  | nil => cases h
  | cons a r =>
    simp only [analisaExpoente] at h
    split_ifs at h with h1 h2 h3 h4 h5
    · subst h1
      rw [List.count_cons_of_ne (by decide)]
      exact count_ponto_digitos (eAmbos h2).2
    · subst h3
      rw [List.count_cons_of_ne (by decide)]
      exact count_ponto_digitos (eAmbos h4).2
    · exact count_ponto_digitos (eAmbos h5).2

lemma analisaDecimal_pontos {l : List Char} {p : List Char × List Char}
    (h : analisaDecimal l = some p) : l.count '.' ≤ 1 := by
  unfold analisaDecimal at h
  rw [← List.takeWhile_append_dropWhile (fun c => c != '.') l,
    List.count_append]
  have htake : (l.takeWhile (fun c => c != '.')).count '.' = 0 := by
    rw [List.count_eq_zero]
    intro hmem
    have h2 := List.mem_takeWhile_imp hmem
    simp at h2
  rw [htake]
  cases hd : l.dropWhile (fun c => c != '.') with
  | nil => simp
  | cons c fp =>
    rw [hd] at h
    simp only [montaDecimal] at h
    split_ifs at h with hcond
    · have hfp : fp.count '.' = 0 :=
        count_ponto_digitos (eAmbos (eAmbos hcond).1).2
      have hc : c = '.' := by
        have h3 := dropWhile_cabeca_falsa hd
        simpa using h3
      subst hc
      rw [List.count_cons_self, hfp]

lemma decompoeMantExp_pontos {l : List Char} {t : List Char × List Char × ℤ}
    (h : decompoeMantExp l = some t) : l.count '.' ≤ 1 := by
  unfold decompoeMantExp at h
  rw [← List.takeWhile_append_dropWhile (fun c => c != 'e' && c != 'E') l,
    List.count_append]
  cases hd : l.dropWhile (fun c => c != 'e' && c != 'E') with
  | nil =>
    rw [hd] at h
    simp only [montaMantExp] at h
    obtain ⟨p, hp, -⟩ := Option.map_eq_some'.mp h
    have h1 := analisaDecimal_pontos hp
    simpa using h1
  | cons c ex =>
    rw [hd] at h
    simp only [montaMantExp] at h
    obtain ⟨p, hp, hmap⟩ := Option.bind_eq_some.mp h
    obtain ⟨e, he, -⟩ := Option.map_eq_some'.mp hmap
    have h1 := analisaDecimal_pontos hp
    have h2 := analisaExpoente_pontos he
    have hcne : c ≠ '.' := by
      intro hcc
      subst hcc
      exact (by decide : ¬(('.' != 'e' && '.' != 'E') = false))
        (dropWhile_cabeca_falsa hd)
    rw [List.count_cons_of_ne (fun heq => hcne heq.symm), h2]
    omega

lemma decompoeLista_pontos : ∀ {l : List Char} {p : PartesFloat},
    decompoeLista l = some p → l.count '.' ≤ 1 := by
  intro l p h
  cases l with
  | nil => simp
  | cons a r =>
    simp only [decompoeLista] at h
    split_ifs at h with h1 h2
    · obtain ⟨t, ht, -⟩ := Option.map_eq_some'.mp h
      subst h1
      rw [List.count_cons_of_ne (by decide)]
      exact decompoeMantExp_pontos ht
    · obtain ⟨t, ht, -⟩ := Option.map_eq_some'.mp h
      subst h2
      rw [List.count_cons_of_ne (by decide)]
      exact decompoeMantExp_pontos ht
    · obtain ⟨t, ht, -⟩ := Option.map_eq_some'.mp h
      exact decompoeMantExp_pontos ht

/-- C10: numeric cleaning replaces every comma by a point, so any input
with two or more commas is unparsable and cleans to numeric null, while a
single comma always acts as the decimal separator: `"1,234"` parses to
1234/1000, not 1234. -/
theorem paraNumero_virgulas :
    (∀ s : String, 2 ≤ s.toList.count ',' → paraNumero (some s) = none)
    ∧ paraNumero (some "1,234,5") = none
    ∧ paraNumero (some "1,234") = some (1234 / 1000) := by
  refine ⟨?_, by decide, ?_⟩
  · intro s h2
    cases hlim : limpar (some s) with
    | none =>
      unfold paraNumero
      rw [hlim]
    | some v =>
      unfold paraNumero
      rw [hlim]
      have hv : v = forma s := limpar_some_eq hlim
      have hcv : 2 ≤ v.toList.count ',' := by
        rw [hv]
        show 2 ≤ ((tira s.toList).map trocaQuebra).count ','
        rw [count_virgula_quebra, count_tira (by decide)]
        exact h2
      show analisaFloatPy (substituiVirgula v) = none
      unfold analisaFloatPy
      cases hdec : decompoe (substituiVirgula v) with
      | none => rfl
      | some p =>
        unfold decompoe at hdec
        have hle := decompoeLista_pontos hdec
        rw [show (substituiVirgula v).toList = v.toList.map trocaVirgula
          from rfl] at hle
        have hge := count_ponto_virgula v.toList
        exact absurd hle (by omega)
  · show (match limpar (some "1,234") with
      | none => none
      | some v => analisaFloatPy (substituiVirgula v)) = some (1234 / 1000)
    rw [show limpar (some "1,234") = some "1,234" from by decide]
    show analisaFloatPy (substituiVirgula "1,234") = some (1234 / 1000)
    rw [show substituiVirgula "1,234" = "1.234" from by decide]
    have hd : decompoe "1.234" = some ⟨false, ['1'], ['2', '3', '4'], 0⟩ := by
      decide
    rw [analisaFloatPy, hd, Option.map_some']
    have g1 : valorDigitos ['1'] = 1 := by decide
    have g2 : valorDigitos ['2', '3', '4'] = 234 := by decide
    rw [valorPartes]
    norm_num [g1, g2, dezElev]

/-- Instance of `paraNumero_virgulas`: `"7,8,9"` cleans to numeric null. -/
theorem paraNumero_virgulas_inst :
    paraNumero (some "7,8,9") = none :=
  paraNumero_virgulas.1 "7,8,9" (by decide)
